import Mathlib

/-!
Shallow embedding of the quota-gated ad monetization engine of the
synthetic-intelligence-orchestrator repository, together with proofs
checking the natural-language specification against the code.

The embedding covers:
* the tiered daily task limits and the quota check
  (`SyntheticIntelligenceOrchestrator.taskLimits`, `canProcessTask`,
  `getTodayTaskCount` in the orchestrator source);
* the ad-frequency policy and ad serving
  (`PremiumAdManager.adFrequency`, `shouldServeAd`, `serveAd`,
  `selectAd`, `getFallbackAd`, `trackImpression`, `updateUserAdStats`);
* the campaign catalog query (`AdCampaignModel.getCampaignsByAudience`)
  and completion recording (`AdCampaignModel.recordCompletion`);
* the CPM optimizer (`CPMOptimizer.calculateOptimalCPM` and its factor
  accessors);
* the user model daily reset (`UserModel.resetDailyCounts`).

Database reads and writes are modelled as pure functions over explicit
row lists; a fallible read is an `Except Unit` value; the wall clock
(`new Date()`) is an explicit parameter (timestamps as integers, hours
as naturals, weekdays as naturals).  JS numbers are modelled as `Int`
(counters) and `Rat` (money and multiplicative factors).
-/

namespace SIO

/-- Subscription tiers, from the `ENUM` in the users table and the tier
tables throughout the source. -/
inductive Tier
  | free
  | basic
  | premium
  | enterprise
deriving DecidableEq, Repr

/-- Meterable resource types, from the `task_type` enum and the
`taskLimits` table keys. -/
inductive ResourceType
  | text
  | image
  | code
  | research
  | analysis
  | voice
deriving DecidableEq, Repr

/-- Daily task limits per tier and resource type, transcribed from
`this.taskLimits` in the orchestrator constructor; `-1` means
unlimited. -/
def taskLimits : Tier → ResourceType → Int
  | .free, .text => 5
  | .free, .image => 1
  | .free, .code => 1
  | .free, .research => 1
  | .free, .analysis => 1
  | .free, .voice => 0
  | .basic, .text => 50
  | .basic, .image => 10
  | .basic, .code => 10
  | .basic, .research => 10
  | .basic, .analysis => 10
  | .basic, .voice => 5
  | .premium, .text => 200
  | .premium, .image => 50
  | .premium, .code => 50
  | .premium, .research => 50
  | .premium, .analysis => 50
  | .premium, .voice => 20
  | .enterprise, _ => -1

/-- `getTodayTaskCount`: the orchestrator issues a `SELECT COUNT(*)`
over today's rows of the tasks table; the surrounding try/catch returns
`0` when the database read fails.  The read outcome is the explicit
argument. -/
def getTodayTaskCount (dbRead : Except Unit Nat) : Nat :=
  match dbRead with
  | .ok n => n
  | .error _ => 0

/-- `canProcessTask`: a limit of `-1` is unlimited; otherwise the
identity's task count for today must be strictly below the limit. -/
def canProcessTask (tier : Tier) (ty : ResourceType) (dbRead : Except Unit Nat) : Bool :=
  if taskLimits tier ty = -1 then true
  else decide ((getTodayTaskCount dbRead : Int) < taskLimits tier ty)

/-- One sequential admission step of `processTask`: the quota check runs
against the current count of today's task rows and, when it passes, the
accepted task eventually adds one row to that count. -/
def processTaskStep (tier : Tier) (ty : ResourceType) (tasksToday : Nat) : Bool × Nat :=
  if canProcessTask tier ty (Except.ok tasksToday) then (true, tasksToday + 1)
  else (false, tasksToday)

/-- Task-row count after `n` sequential `processTask` admissions
starting from an empty day. -/
def runSequential (tier : Tier) (ty : ResourceType) : Nat → Nat
  | 0 => 0
  | n + 1 => (processTaskStep tier ty (runSequential tier ty n)).2

/-- Modelled from the spec: the `remainingToday` field of the
`tryConsume` contract (the code's `canProcessTask` returns only a
boolean and exposes no remaining-quota number).  Remaining quota is the
limit minus today's count, floored at zero. -/
def remainingToday (limit : Int) (count : Nat) : Int :=
  max (limit - count) 0

/-! ### Interleaved quota checks (concurrency model for the race claim)

`processTask` performs the quota check (`getTodayTaskCount`, a SELECT)
and the recording of the accepted task (an INSERT) as two separate
database statements with no lock or transaction between them.  Each
in-flight request is therefore a two-phase program: first it observes
the current count, later it decides on the observed value and, when
allowed, adds its row.  A schedule interleaves the phases of two
requests from the same identity. -/

/-- One in-flight request: the count it has observed (if any), whether
it has reached its decision, and whether it was accepted. -/
structure ReqProg where
  observed : Option Nat
  decided : Bool
  accepted : Bool
deriving DecidableEq, Repr

def ReqProg.init : ReqProg := ⟨none, false, false⟩

/-- Shared state: the number of task rows for the identity and type
today, plus the two request programs. -/
structure RaceState where
  tasksCount : Nat
  req1 : ReqProg
  req2 : ReqProg
deriving DecidableEq, Repr

/-- Run one phase of a request against the shared count: an unread
request reads the count; a read but undecided request applies
`canProcessTask` to its (possibly stale) observation and inserts its
row when allowed; a decided request does nothing. -/
def reqPhase (tier : Tier) (ty : ResourceType) (r : ReqProg) (count : Nat) :
    ReqProg × Nat :=
  match r.observed with
  | none => ({ r with observed := some count }, count)
  | some o =>
    if r.decided then (r, count)
    else if canProcessTask tier ty (Except.ok o) then
      ({ r with decided := true, accepted := true }, count + 1)
    else
      ({ r with decided := true, accepted := false }, count)

/-- Advance the request selected by the scheduler. -/
def raceStep (tier : Tier) (ty : ResourceType) (s : RaceState) (pick : Bool) :
    RaceState :=
  if pick then
    let p := reqPhase tier ty s.req2 s.tasksCount
    { s with req2 := p.1, tasksCount := p.2 }
  else
    let p := reqPhase tier ty s.req1 s.tasksCount
    { s with req1 := p.1, tasksCount := p.2 }

/-- Execute a schedule of phase picks from the empty-day state. -/
def runRace (tier : Tier) (ty : ResourceType) (sched : List Bool) : RaceState :=
  sched.foldl (raceStep tier ty) ⟨0, ReqProg.init, ReqProg.init⟩

/-! ### CPM optimizer (`cpm-optimizer.js`)

`calculateOptimalCPM` multiplies the base CPM by five factors, clamps
the product from below at half the base CPM, and rounds to two decimal
places.  The time-of-day and day-of-week factors come from
`new Date()`, modelled as the explicit `hour` and `day` arguments. -/

/-- Behavioral signals; an absent JS field makes both of its threshold
comparisons false, modelled by `none`. -/
structure UserBehavior where
  adCompletionRate : Option ℚ
  avgSessionDuration : Option ℚ
  taskCompletionRate : Option ℚ
deriving DecidableEq

/-- The context handed to the optimizer: user tier, country code and
behavioral signals. -/
structure AdContext where
  userTier : Tier
  country : String
  userBehavior : UserBehavior
deriving DecidableEq

/-- The 6-hour bucket index chosen by `getTimeOfDayFactor` from the
current hour (0 = night, 1 = morning, 2 = afternoon, 3 = evening). -/
def timeSlotOfHour (hour : Nat) : Nat :=
  if hour < 6 then 0
  else if hour < 12 then 1
  else if hour < 18 then 2
  else 3

/-- Time-of-day factor table, keyed by the bucket of the current hour. -/
def getTimeOfDayFactor (hour : Nat) : ℚ :=
  match timeSlotOfHour hour with
  | 0 => 4 / 5
  | 1 => 6 / 5
  | 2 => 1
  | _ => 11 / 10

/-- Day-of-week factor table (0 = Sunday .. 6 = Saturday); the JS
or-fallback yields 1 for any other key. -/
def getDayOfWeekFactor (day : Nat) : ℚ :=
  match day with
  | 0 => 9 / 10
  | 1 => 1
  | 2 => 1
  | 3 => 1
  | 4 => 1
  | 5 => 11 / 10
  | 6 => 6 / 5
  | _ => 1

/-- The `userTier` entries of `optimizationFactors`. -/
def userTierFactorTable : Tier → ℚ
  | .free => 1
  | .basic => 6 / 5
  | .premium => 3 / 2
  | .enterprise => 0

/-- `getUserTierFactor` evaluates `table[tier] || 1.0`; a looked-up
value of `0` is falsy in JS, so the fallback `1.0` replaces it. -/
def getUserTierFactor (tier : Tier) : ℚ :=
  let v := userTierFactorTable tier
  if v = 0 then 1 else v

/-- `getGeographicFactor`: country table with default `0.8`. -/
def getGeographicFactor (country : String) : ℚ :=
  if country = "US" then 13 / 10
  else if country = "GB" then 6 / 5
  else if country = "EU" then 11 / 10
  else if country = "ZA" then 1
  else 4 / 5

/-- `getBehavioralFactor`: completion-rate, session-duration and
task-completion adjustments. -/
def getBehavioralFactor (ub : UserBehavior) : ℚ :=
  let f1 : ℚ :=
    match ub.adCompletionRate with
    | some r => if 4 / 5 < r then 6 / 5 else if r < 3 / 10 then 4 / 5 else 1
    | none => 1
  let f2 : ℚ :=
    match ub.avgSessionDuration with
    | some d => if 600 < d then 11 / 10 else 1
    | none => 1
  let f3 : ℚ :=
    match ub.taskCompletionRate with
    | some r => if 7 / 10 < r then 23 / 20 else 1
    | none => 1
  f1 * f2 * f3

/-- `Math.round(x * 100) / 100`: JS `Math.round` is floor of `x + 1/2`. -/
def jsRound2 (x : ℚ) : ℚ :=
  ((⌊x * 100 + 1 / 2⌋ : ℤ) : ℚ) / 100

/-- `calculateOptimalCPM`: the product of base CPM and the five
factors, clamped below at `baseCPM * 0.5` and rounded to cents. -/
def calculateOptimalCPM (baseCPM : ℚ) (ctx : AdContext) (hour day : Nat) : ℚ :=
  let optimized := baseCPM * getTimeOfDayFactor hour * getDayOfWeekFactor day
    * getUserTierFactor ctx.userTier * getGeographicFactor ctx.country
    * getBehavioralFactor ctx.userBehavior
  jsRound2 (max optimized (baseCPM * (1 / 2)))

/-! ### Campaign catalog and ad selection (`ad-campaign` model and
`ad-manager.js`) -/

/-- Campaign lifecycle states, from the `status` enum of the
ad_campaigns table. -/
inductive CampaignStatus
  | active
  | paused
  | completed
  | cancelled
deriving DecidableEq

/-- One row of the ad_campaigns table (ids rendered as strings: the
database assigns numeric ids, the fallback ad uses the literal id
"fallback").  `end_date` and, in the JS filter, `budget` are
nullable. -/
structure Campaign where
  id : String
  name : String
  advertiser : String
  cpm : ℚ
  duration : Nat
  targetAudience : List Tier
  contentUrl : String
  startDate : Int
  endDate : Option Int
  budget : Option ℚ
  status : CampaignStatus
  impressions : Nat
  completions : Nat
  revenue : ℚ
deriving DecidableEq

/-- `AdCampaignModel.getCampaignsByAudience`: the SQL filter - active
status, `start_date <= NOW()`, `end_date` null or `>= NOW()`, and the
requested tier contained in the target audience JSON array. -/
def getCampaignsByAudience (catalog : List Campaign) (now : Int) (tier : Tier) :
    List Campaign :=
  catalog.filter fun c =>
    decide (c.status = .active)
    && decide (c.startDate ≤ now)
    && (match c.endDate with
        | none => true
        | some e => decide (now ≤ e))
    && decide (tier ∈ c.targetAudience)

/-- The in-memory filter of `selectAd`: active status, budget null or
revenue strictly below budget, end date null or not yet passed. -/
def availableFilter (now : Int) (c : Campaign) : Bool :=
  decide (c.status = .active)
  && (match c.budget with
      | none => true
      | some b => decide (c.revenue < b))
  && (match c.endDate with
      | none => true
      | some e => decide (now ≤ e))

/-- The campaigns that survive both the SQL audience query and the
in-memory availability filter. -/
def availableCampaigns (catalog : List Campaign) (now : Int) (tier : Tier) :
    List Campaign :=
  (getCampaignsByAudience catalog now tier).filter (availableFilter now)

/-- The JS `reduce((prev, current) => prev.cpm > current.cpm ? prev :
current)` over a nonempty list: the accumulator is kept only when its
cpm is strictly greater, so on ties the later element wins. -/
def selectBest : Campaign → List Campaign → Campaign
  | best, [] => best
  | best, c :: cs => selectBest (if c.cpm < best.cpm then best else c) cs

/-- `getFallbackAd`: the fixed fallback ad object.  The JS literal has
only id, content, duration, cpm, name and advertiser; the remaining
record fields are defaults for typing. -/
def getFallbackAd : Campaign :=
  { id := "fallback"
    name := "Fallback Ad"
    advertiser := "AI Orchestrator"
    cpm := 50
    duration := 30
    targetAudience := []
    contentUrl := "https://cdn.example.com/ads/fallback-ad.mp4"
    startDate := 0
    endDate := none
    budget := none
    status := .active
    impressions := 0
    completions := 0
    revenue := 0 }

/-- `selectAd`: a failed catalog query (`none`) is caught and resolved
to the fallback; an empty audience result or an empty availability
filter also yield the fallback; otherwise the reduce picks a campaign
with the highest raw cpm. -/
def selectAd (catalogResult : Option (List Campaign)) (now : Int) (tier : Tier) :
    Campaign :=
  match catalogResult with
  | none => getFallbackAd
  | some catalog =>
    let campaigns := getCampaignsByAudience catalog now tier
    if campaigns.isEmpty then getFallbackAd
    else
      match campaigns.filter (availableFilter now) with
      | [] => getFallbackAd
      | h :: t => selectBest h t

/-! ### Ad serving (`PremiumAdManager.serveAd` and its helpers) -/

/-- The user statistics row read by the ad middleware (JS `|| 0`
defaults fold absent fields into the integers). -/
structure UserStats where
  tasksCount : Int
  lastAdTaskCount : Int
  adsToday : Int
deriving DecidableEq

/-- `this.adFrequency`: per-tier `(tasksPerAd, maxAdsPerDay)`. -/
def adFrequency : Tier → Nat × Nat
  | .free => (2, 10)
  | .basic => (5, 8)
  | .premium => (200, 1)
  | .enterprise => (0, 0)

/-- `shouldServeAd`: no ad when `tasksPerAd` is zero; otherwise an ad
is due when the tasks since the last ad reach `tasksPerAd` and today's
ads are below `maxAdsPerDay`. -/
def shouldServeAd (tier : Tier) (stats : UserStats) : Bool :=
  let f := adFrequency tier
  if f.1 = 0 then false
  else
    decide ((f.1 : Int) ≤ stats.tasksCount - stats.lastAdTaskCount)
    && decide (stats.adsToday < (f.2 : Int))

/-- `trackImpression`: the insert of the impression row may fail; the
catch swallows the error and substitutes a locally generated tracking
token, so the caller never sees a failure. -/
def trackImpression (dbWrite : Except Unit String) (genTok : String) : String :=
  match dbWrite with
  | .ok impressionId => impressionId
  | .error _ => genTok

/-- The outcome `serveAd` hands back to the middleware. -/
inductive ServeResult
  | noAd
  | withAd (ad : Campaign) (trackingId : String)
deriving DecidableEq

/-- `serveAd`: frequency check, ad selection (total, with fallback),
impression tracking (total, with generated token); the descriptor is
returned to the caller in every served case. -/
def serveAd (tier : Tier) (stats : UserStats) (catalogResult : Option (List Campaign))
    (now : Int) (dbWrite : Except Unit String) (genTok : String) : ServeResult :=
  if shouldServeAd tier stats then
    ServeResult.withAd (selectAd catalogResult now tier) (trackImpression dbWrite genTok)
  else ServeResult.noAd

/-! ### Impression rows and completion recording
(`AdCampaignModel.recordCompletion`) -/

/-- One row of the ad_impressions table. -/
structure Impression where
  id : Nat
  campaignId : String
  userId : Nat
  revenue : ℚ
  completed : Bool
  completedAt : Option Int
deriving DecidableEq

/-- The durable ad state: impression rows plus campaign rows. -/
structure AdDb where
  impressions : List Impression
  campaigns : List Campaign
deriving DecidableEq

/-- `recordCompletion`: first UPDATE sets `completed = 1` and
`completed_at = NOW()` on the matching impression row; the second
UPDATE unconditionally increments the completions counter of the
campaign referenced by that impression (no row is touched when the
impression id is unknown); returns whether an impression row matched. -/
def recordCompletion (db : AdDb) (impressionId : Nat) (now : Int) : AdDb × Bool :=
  let matched := (db.impressions.filter fun i => decide (i.id = impressionId)).length
  let newImpressions := db.impressions.map fun i =>
    if i.id = impressionId then { i with completed := true, completedAt := some now }
    else i
  let newCampaigns :=
    match db.impressions.find? (fun i => decide (i.id = impressionId)) with
    | some imp =>
      db.campaigns.map fun c =>
        if c.id = imp.campaignId then { c with completions := c.completions + 1 }
        else c
    | none => db.campaigns
  (⟨newImpressions, newCampaigns⟩, decide (0 < matched))

/-! ### User rows, the daily reset and the ad-stat update
(`UserModel` and `PremiumAdManager.updateUserAdStats`) -/

/-- One row of the users table (the fields the quota and ad ledgers
touch; dates as day numbers). -/
structure UserRow where
  id : Nat
  subscriptionTier : Tier
  tasksToday : Nat
  adsToday : Nat
  totalAds : Nat
  lastAdTaskCount : Int
  lastAdDate : Option Nat
  lastTaskDate : Option Nat
  updatedAt : Nat
deriving DecidableEq

/-- The per-row effect of the `resetDailyCounts` UPDATE: rows whose
`updated_at` date precedes today get both daily counters zeroed.  The
SET clause names only the two counters, but the users table declares
`updated_at TIMESTAMP ... ON UPDATE CURRENT_TIMESTAMP`, so the
database also sets `updated_at = NOW()` on every row the statement
actually changes; a matched row whose counters are already both zero
is left untouched (MySQL skips the write, and the timestamp, when the
row value would not change). -/
def resetUserRow (today : Nat) (u : UserRow) : UserRow :=
  if u.updatedAt < today then
    if u.tasksToday = 0 ∧ u.adsToday = 0 then u
    else { u with tasksToday := 0, adsToday := 0, updatedAt := today }
  else u

/-- `UserModel.resetDailyCounts`: the UPDATE applied across the users
table. -/
def resetDailyCounts (today : Nat) (users : List UserRow) : List UserRow :=
  users.map (resetUserRow today)

/-- `PremiumAdManager.updateUserAdStats`: increments `ads_today` and
`total_ads`, sets the frequency-cap watermark `last_ad_task_count`,
`last_ad_date = CURDATE()` and `updated_at = NOW()` on the one user
row. -/
def updateUserAdStats (userId : Nat) (currentTaskCount : Int) (today : Nat)
    (users : List UserRow) : List UserRow :=
  users.map fun u =>
    if u.id = userId then
      { u with
        adsToday := u.adsToday + 1
        totalAds := u.totalAds + 1
        lastAdTaskCount := currentTaskCount
        lastAdDate := some today
        updatedAt := today }
    else u

/-- `UserModel.incrementTaskCount`: the read-free SQL increment of
`tasks_today` (also bumps `updated_at`). -/
def incrementTaskCount (userId : Nat) (today : Nat) (users : List UserRow) :
    List UserRow :=
  users.map fun u =>
    if u.id = userId then { u with tasksToday := u.tasksToday + 1, updatedAt := today }
    else u

/-! ### Spec-side selection rule and concrete test fixtures -/

/-- The selection rule exactly as the spec words it, for comparison
with `selectAd`: the returned campaign belongs to the eligible set, its
optimizer-adjusted CPM is maximal, and among adjusted-CPM ties it has
the lowest identifier (identifiers compared lexicographically on their
character lists). -/
def specSelectionHolds (avail : List Campaign) (r : Campaign) (ctx : AdContext)
    (hour day : Nat) : Bool :=
  decide (r ∈ avail)
  && avail.all (fun x =>
      decide (calculateOptimalCPM x.cpm ctx hour day ≤ calculateOptimalCPM r.cpm ctx hour day))
  && avail.all (fun x =>
      !(decide (calculateOptimalCPM x.cpm ctx hour day = calculateOptimalCPM r.cpm ctx hour day))
      || !(decide (x.id.data < r.id.data)))

/-- An eligible campaign with id "1". -/
def cexCampaignA : Campaign :=
  { id := "1"
    name := "Campaign One"
    advertiser := "Advertiser One"
    cpm := 10
    duration := 30
    targetAudience := [Tier.free]
    contentUrl := "https://cdn.example.com/ads/one.mp4"
    startDate := 0
    endDate := none
    budget := some 100
    status := .active
    impressions := 0
    completions := 0
    revenue := 0 }

/-- An eligible campaign with id "2" and the same cpm as campaign "1". -/
def cexCampaignB : Campaign :=
  { cexCampaignA with id := "2", name := "Campaign Two", advertiser := "Advertiser Two" }

/-- A free-tier United-States context with no behavioral signals. -/
def freeUSContext : AdContext :=
  { userTier := Tier.free, country := "US", userBehavior := ⟨none, none, none⟩ }

/-- An enterprise-tier context with no behavioral signals. -/
def entContext : AdContext :=
  { userTier := Tier.enterprise, country := "ZA", userBehavior := ⟨none, none, none⟩ }

/-- A pending impression row for campaign "7". -/
def cexImpression : Impression :=
  { id := 1, campaignId := "7", userId := 9, revenue := 1 / 20
    completed := false, completedAt := none }

/-- Campaign "7" with zero recorded completions. -/
def cexCampaignC : Campaign :=
  { cexCampaignA with id := "7", name := "Campaign Seven" }

/-- An ad database holding the one impression and its campaign. -/
def cexAdDb : AdDb :=
  { impressions := [cexImpression], campaigns := [cexCampaignC] }

/-- A user row last updated on day 9 with nonzero daily counters. -/
def cexUserRow : UserRow :=
  { id := 1
    subscriptionTier := Tier.free
    tasksToday := 3
    adsToday := 1
    totalAds := 7
    lastAdTaskCount := 2
    lastAdDate := some 9
    lastTaskDate := some 9
    updatedAt := 9 }

end SIO

namespace SIO

/-! ### Helper lemmas -/

lemma canProcessTask_ok_iff {tier : Tier} {ty : ResourceType} {L : Nat}
    (h : taskLimits tier ty = (L : Int)) (c : Nat) :
    canProcessTask tier ty (Except.ok c) = true ↔ c < L := by
  unfold canProcessTask getTodayTaskCount
  rw [h]
  have hne : ((L : Int) = -1) = False := by
    simp only [eq_iff_iff, iff_false]
    omega
  simp [hne]

lemma runSequential_eq_min {tier : Tier} {ty : ResourceType} {L : Nat}
    (h : taskLimits tier ty = (L : Int)) (n : Nat) :
    runSequential tier ty n = min n L := by
  induction n with
  | zero => simp [runSequential]
  | succ n ih =>
    unfold runSequential processTaskStep
    rw [ih]
    by_cases hlt : min n L < L
    · rw [if_pos ((canProcessTask_ok_iff h _).mpr hlt)]
      simp only
      omega
    · rw [if_neg (by simp [canProcessTask_ok_iff h]; omega)]
      simp only
      omega

lemma selectBest_mem (b : Campaign) (cs : List Campaign) : selectBest b cs ∈ b :: cs := by
  induction cs generalizing b with
  | nil => simp [selectBest]
  | cons c cs ih =>
    show selectBest (if c.cpm < b.cpm then b else c) cs ∈ b :: c :: cs
    have h := ih (if c.cpm < b.cpm then b else c)
    rcases List.mem_cons.mp h with h1 | h1
    · rw [h1]
      by_cases hc : c.cpm < b.cpm
      · simp [hc]
      · simp [hc]
    · exact List.mem_cons_of_mem _ (List.mem_cons_of_mem _ h1)

lemma selectBest_max (b : Campaign) (cs : List Campaign) :
    ∀ x ∈ b :: cs, x.cpm ≤ (selectBest b cs).cpm := by
  induction cs generalizing b with
  | nil =>
    intro x hx
    rcases List.mem_cons.mp hx with h | h
    · rw [h]
      simp [selectBest]
    · simp at h
  | cons c cs ih =>
    intro x hx
    show x.cpm ≤ (selectBest (if c.cpm < b.cpm then b else c) cs).cpm
    have hb : b.cpm ≤ (if c.cpm < b.cpm then b else c).cpm := by
      by_cases hc : c.cpm < b.cpm
      · simp [hc]
      · simp only [if_neg hc]
        exact le_of_not_lt hc
    have hcle : c.cpm ≤ (if c.cpm < b.cpm then b else c).cpm := by
      by_cases hc : c.cpm < b.cpm
      · simp only [if_pos hc]
        exact le_of_lt hc
      · simp [hc]
    have hacc : (if c.cpm < b.cpm then b else c).cpm
        ≤ (selectBest (if c.cpm < b.cpm then b else c) cs).cpm :=
      ih _ _ (List.mem_cons_self _ _)
    rcases List.mem_cons.mp hx with h | h
    · rw [h]; exact le_trans hb hacc
    rcases List.mem_cons.mp h with h | h
    · rw [h]; exact le_trans hcle hacc
    · exact ih _ x (List.mem_cons_of_mem _ h)

lemma getLast?_cons_of_ne_nil {α : Type} (x : α) {l : List α} {r : α}
    (h : l.getLast? = some r) : (x :: l).getLast? = some r := by
  cases l with
  | nil => simp at h
  | cons y ys => rw [List.getLast?_cons_cons]; exact h

lemma selectBest_last (b : Campaign) (cs : List Campaign) :
    ((b :: cs).filter fun x => decide ((selectBest b cs).cpm ≤ x.cpm)).getLast?
      = some (selectBest b cs) := by
  induction cs generalizing b with
  | nil => simp [selectBest]
  | cons c cs ih =>
    by_cases hc : c.cpm < b.cpm
    · have hsel : selectBest b (c :: cs) = selectBest b cs := by
        show selectBest (if c.cpm < b.cpm then b else c) cs = selectBest b cs
        rw [if_pos hc]
      have hmax : b.cpm ≤ (selectBest b cs).cpm :=
        selectBest_max b cs b (List.mem_cons_self _ _)
      have hpc : decide ((selectBest b cs).cpm ≤ c.cpm) = false := by
        simp only [decide_eq_false_iff_not, not_le]
        exact lt_of_lt_of_le hc hmax
      rw [hsel]
      have h1 : ((b :: c :: cs).filter fun x => decide ((selectBest b cs).cpm ≤ x.cpm))
          = ((b :: cs).filter fun x => decide ((selectBest b cs).cpm ≤ x.cpm)) := by
        simp only [List.filter_cons, hpc]
        simp
      rw [h1]
      exact ih b
    · have hsel : selectBest b (c :: cs) = selectBest c cs := by
        show selectBest (if c.cpm < b.cpm then b else c) cs = selectBest c cs
        rw [if_neg hc]
      rw [hsel]
      by_cases hpb : decide ((selectBest c cs).cpm ≤ b.cpm) = true
      · have h1 : ((b :: c :: cs).filter fun x => decide ((selectBest c cs).cpm ≤ x.cpm))
            = b :: ((c :: cs).filter fun x => decide ((selectBest c cs).cpm ≤ x.cpm)) := by
          simp only [List.filter_cons, hpb]
          simp
        rw [h1]
        exact getLast?_cons_of_ne_nil b (ih c)
      · have hpb2 : decide ((selectBest c cs).cpm ≤ b.cpm) = false := by
          simpa using hpb
        have h1 : ((b :: c :: cs).filter fun x => decide ((selectBest c cs).cpm ≤ x.cpm))
            = ((c :: cs).filter fun x => decide ((selectBest c cs).cpm ≤ x.cpm)) := by
          simp only [List.filter_cons, hpb2]
          simp
        rw [h1]
        exact ih c

lemma selectAd_some_cases (catalog : List Campaign) (now : Int) (tier : Tier) :
    (availableCampaigns catalog now tier = []
      ∧ selectAd (some catalog) now tier = getFallbackAd)
    ∨ ∃ h t, availableCampaigns catalog now tier = h :: t
        ∧ selectAd (some catalog) now tier = selectBest h t := by
  unfold availableCampaigns
  cases hcamp : getCampaignsByAudience catalog now tier with
  | nil =>
    left
    exact ⟨by simp, by simp [selectAd, hcamp]⟩
  | cons a as =>
    cases hav : (a :: as).filter (availableFilter now) with
    | nil =>
      left
      exact ⟨rfl, by simp [selectAd, hcamp, hav]⟩
    | cons h t =>
      right
      exact ⟨h, t, rfl, by simp [selectAd, hcamp, hav]⟩

lemma mem_availableCampaigns {catalog : List Campaign} {now : Int} {tier : Tier}
    {c : Campaign} (h : c ∈ availableCampaigns catalog now tier) :
    c ∈ catalog ∧ c.status = .active ∧ c.startDate ≤ now
    ∧ (∀ e, c.endDate = some e → now ≤ e)
    ∧ tier ∈ c.targetAudience
    ∧ (∀ b, c.budget = some b → c.revenue < b) := by
  unfold availableCampaigns at h
  rcases List.mem_filter.mp h with ⟨h1, hfil⟩
  rcases List.mem_filter.mp h1 with ⟨hcat, hsql⟩
  unfold availableFilter at hfil
  simp only [Bool.and_eq_true, decide_eq_true_eq] at hfil hsql
  refine ⟨hcat, hsql.1.1.1, hsql.1.1.2, ?_, hsql.2, ?_⟩
  · intro e he
    have h2 := hsql.1.2
    rw [he] at h2
    simpa using h2
  · intro b hb
    have h2 := hfil.1.2
    rw [hb] at h2
    simpa using h2

/-- C1: for a tier and resource type with a finite daily limit `L`, the
quota check accepts exactly while today's count is strictly below `L`;
from an empty day the first `L` sequential admissions are accepted, the
next is denied with zero remaining quota; a limit of `-1` always
accepts. -/
theorem canProcessTask_daily_limit (tier : Tier) (ty : ResourceType) :
    (taskLimits tier ty = -1 → ∀ c : Nat, canProcessTask tier ty (Except.ok c) = true)
    ∧ (∀ L : Nat, taskLimits tier ty = (L : Int) →
        (∀ c : Nat, canProcessTask tier ty (Except.ok c) = true ↔ c < L)
        ∧ (∀ k : Nat, k < L → (processTaskStep tier ty (runSequential tier ty k)).1 = true)
        ∧ (processTaskStep tier ty (runSequential tier ty L)).1 = false
        ∧ remainingToday (taskLimits tier ty) (runSequential tier ty L) = 0) := by
  constructor
  · intro h c
    unfold canProcessTask
    rw [h]
    simp
  · intro L h
    refine ⟨canProcessTask_ok_iff h, ?_, ?_, ?_⟩
    · intro k hk
      unfold processTaskStep
      rw [if_pos ((canProcessTask_ok_iff h _).mpr (by rw [runSequential_eq_min h]; omega))]
    · unfold processTaskStep
      rw [if_neg (by simp [canProcessTask_ok_iff h, runSequential_eq_min h])]
    · rw [runSequential_eq_min h, h]
      unfold remainingToday
      simp

/-- Witness for C1 at the spec's scenario: free tier text, limit 5 -
the fifth sequential call is accepted, the sixth is denied with zero
remaining. -/
theorem canProcessTask_daily_limit_witness :
    (processTaskStep Tier.free ResourceType.text (runSequential Tier.free ResourceType.text 4)).1 = true
    ∧ (processTaskStep Tier.free ResourceType.text (runSequential Tier.free ResourceType.text 5)).1 = false
    ∧ remainingToday (taskLimits Tier.free ResourceType.text) (runSequential Tier.free ResourceType.text 5) = 0
    ∧ canProcessTask Tier.enterprise ResourceType.text (Except.ok 1000000) = true := by
  have h := canProcessTask_daily_limit Tier.free ResourceType.text
  have h5 := h.2 5 rfl
  have he := (canProcessTask_daily_limit Tier.enterprise ResourceType.text).1 rfl 1000000
  exact ⟨h5.2.1 4 (by omega), h5.2.2.1, h5.2.2.2, he⟩

/-- C2 counterexample: two eligible campaigns share the maximal cpm (so
also the maximal optimizer-adjusted CPM); `selectAd` returns the one
with the higher identifier, violating the claimed
lowest-identifier tie-break. -/
theorem selectAd_tiebreak_cex :
    selectAd (some [cexCampaignA, cexCampaignB]) 0 Tier.free = cexCampaignB
    ∧ cexCampaignA.id.data < cexCampaignB.id.data
    ∧ calculateOptimalCPM cexCampaignA.cpm freeUSContext 12 1
      = calculateOptimalCPM cexCampaignB.cpm freeUSContext 12 1
    ∧ specSelectionHolds (availableCampaigns [cexCampaignA, cexCampaignB] 0 Tier.free)
        (selectAd (some [cexCampaignA, cexCampaignB]) 0 Tier.free)
        freeUSContext 12 1 = false := by
  have hsel : selectAd (some [cexCampaignA, cexCampaignB]) 0 Tier.free = cexCampaignB := by
    decide
  have hav : availableCampaigns [cexCampaignA, cexCampaignB] 0 Tier.free
      = [cexCampaignA, cexCampaignB] := by
    decide
  have heq : calculateOptimalCPM cexCampaignA.cpm freeUSContext 12 1
      = calculateOptimalCPM cexCampaignB.cpm freeUSContext 12 1 := rfl
  have hlt : decide (cexCampaignA.id.data < cexCampaignB.id.data) = true := by decide
  refine ⟨hsel, by decide, heq, ?_⟩
  rw [hsel, hav]
  simp only [specSelectionHolds, List.all_cons, List.all_nil, heq, hlt]
  simp

/-- C2 as amended: when the filtered eligible set is nonempty,
`selectAd` returns the campaign produced by the JS reduce over raw
`campaign.cpm` values (the optimizer is not consulted): a member of the
set with maximal raw cpm, and among the maximal-cpm campaigns the one
occurring last in the catalog order. -/
theorem selectAd_max_raw_cpm (catalog : List Campaign) (now : Int) (tier : Tier)
    (h : Campaign) (t : List Campaign)
    (hav : availableCampaigns catalog now tier = h :: t) :
    selectAd (some catalog) now tier = selectBest h t
    ∧ selectBest h t ∈ h :: t
    ∧ (∀ x ∈ h :: t, x.cpm ≤ (selectBest h t).cpm)
    ∧ ((h :: t).filter fun x => decide ((selectBest h t).cpm ≤ x.cpm)).getLast?
        = some (selectBest h t) := by
  rcases selectAd_some_cases catalog now tier with ⟨he, _⟩ | ⟨h2, t2, hav2, hsel⟩
  · rw [hav] at he
    exact absurd he (by simp)
  · have heq := hav.symm.trans hav2
    injection heq with e1 e2
    subst e1
    subst e2
    exact ⟨hsel, selectBest_mem h t, selectBest_max h t, selectBest_last h t⟩

/-- Witness for the amended C2 on a concrete two-campaign catalog. -/
theorem selectAd_max_raw_cpm_witness :
    selectAd (some [cexCampaignA, cexCampaignB]) 0 Tier.free
      = selectBest cexCampaignA [cexCampaignB]
    ∧ selectBest cexCampaignA [cexCampaignB] ∈ [cexCampaignA, cexCampaignB]
    ∧ ∀ x ∈ [cexCampaignA, cexCampaignB],
        x.cpm ≤ (selectBest cexCampaignA [cexCampaignB]).cpm := by
  have h := selectAd_max_raw_cpm [cexCampaignA, cexCampaignB] 0 Tier.free
    cexCampaignA [cexCampaignB] (by decide)
  exact ⟨h.1, h.2.1, h.2.2.1⟩

/-- C3: under the schema invariant that no catalog row has a null
budget (the ad_campaigns column is NOT NULL), every campaign `selectAd`
returns other than the fallback is active, inside its schedule window,
targeted at the requesting tier, and strictly under budget. -/
theorem selectAd_eligible_or_fallback (catalog : List Campaign) (now : Int) (tier : Tier)
    (hschema : ∀ c ∈ catalog, c.budget ≠ none) :
    selectAd (some catalog) now tier = getFallbackAd
    ∨ ((selectAd (some catalog) now tier).status = .active
        ∧ (selectAd (some catalog) now tier).startDate ≤ now
        ∧ (∀ e, (selectAd (some catalog) now tier).endDate = some e → now ≤ e)
        ∧ tier ∈ (selectAd (some catalog) now tier).targetAudience
        ∧ ∃ b, (selectAd (some catalog) now tier).budget = some b
            ∧ (selectAd (some catalog) now tier).revenue < b) := by
  rcases selectAd_some_cases catalog now tier with ⟨_, hfb⟩ | ⟨h, t, hav, hsel⟩
  · exact Or.inl hfb
  · right
    have hmem : selectBest h t ∈ availableCampaigns catalog now tier := by
      rw [hav]
      exact selectBest_mem h t
    have hc := mem_availableCampaigns hmem
    rw [hsel]
    cases hbud : (selectBest h t).budget with
    | none => exact absurd hbud (hschema _ hc.1)
    | some b =>
      exact ⟨hc.2.1, hc.2.2.1, hc.2.2.2.1, hc.2.2.2.2.1, b, rfl,
        hc.2.2.2.2.2 b hbud⟩

/-- Witness for C3 on a one-campaign catalog: the returned campaign is
eligible. -/
theorem selectAd_eligible_or_fallback_witness :
    selectAd (some [cexCampaignA]) 0 Tier.free = getFallbackAd
    ∨ ((selectAd (some [cexCampaignA]) 0 Tier.free).status = .active
        ∧ (selectAd (some [cexCampaignA]) 0 Tier.free).startDate ≤ 0
        ∧ (∀ e, (selectAd (some [cexCampaignA]) 0 Tier.free).endDate = some e → 0 ≤ e)
        ∧ Tier.free ∈ (selectAd (some [cexCampaignA]) 0 Tier.free).targetAudience
        ∧ ∃ b, (selectAd (some [cexCampaignA]) 0 Tier.free).budget = some b
            ∧ (selectAd (some [cexCampaignA]) 0 Tier.free).revenue < b) :=
  selectAd_eligible_or_fallback [cexCampaignA] 0 Tier.free (by decide)

/-- C4 counterexample: for an enterprise context and base CPM 10 the
optimizer returns 10, not 0 - the enterprise table entry 0 is falsy in
JS, so the or-fallback substitutes the factor 1.0 (and even a zero
product would be lifted by the `baseCPM * 0.5` clamp). -/
theorem enterprise_cpm_cex :
    calculateOptimalCPM 10 entContext 12 1 = 10
    ∧ calculateOptimalCPM 10 entContext 12 1 ≠ 0 := by
  have h : calculateOptimalCPM 10 entContext 12 1 = 10 := by
    have ht : getTimeOfDayFactor 12 = 1 := by decide
    have hd : getDayOfWeekFactor 1 = 1 := by decide
    have hu : getUserTierFactor entContext.userTier = 1 := by decide
    have hg : getGeographicFactor entContext.country = 1 := by decide
    have hb : getBehavioralFactor entContext.userBehavior = 1 := by
      norm_num [getBehavioralFactor, entContext]
    simp only [calculateOptimalCPM]
    rw [ht, hd, hu, hg, hb]
    rw [max_eq_left (by norm_num)]
    simp only [jsRound2]
    norm_num
  exact ⟨h, by rw [h]; norm_num⟩

/-- C4 as amended: the applied enterprise tier factor is 1 (the table's
0 is replaced by the falsy-default), so an enterprise context prices
exactly like a free-tier context (whose factor is genuinely 1); the
result is not forced to zero. -/
theorem enterprise_tier_factor_defaulted (b : ℚ) (ctx : AdContext) (hour day : Nat)
    (h : ctx.userTier = Tier.enterprise) :
    getUserTierFactor ctx.userTier = 1
    ∧ calculateOptimalCPM b ctx hour day
      = calculateOptimalCPM b ⟨Tier.free, ctx.country, ctx.userBehavior⟩ hour day := by
  obtain ⟨tv, co, ub⟩ := ctx
  simp only at h
  subst h
  constructor
  · norm_num [getUserTierFactor, userTierFactorTable]
  · unfold calculateOptimalCPM
    norm_num [getUserTierFactor, userTierFactorTable]

/-- Witness for the amended C4 at base CPM 10. -/
theorem enterprise_tier_factor_defaulted_witness :
    getUserTierFactor entContext.userTier = 1
    ∧ calculateOptimalCPM 10 entContext 12 1
      = calculateOptimalCPM 10 ⟨Tier.free, entContext.country, entContext.userBehavior⟩ 12 1 :=
  enterprise_tier_factor_defaulted 10 entContext 12 1 rfl

/-- C5 counterexample: two calls with identical base CPM and identical
context but different wall-clock hours return different numbers - the
optimizer reads `new Date()` rather than its arguments alone. -/
theorem cpm_time_dependent_cex :
    calculateOptimalCPM 100 freeUSContext 3 1 = 104
    ∧ calculateOptimalCPM 100 freeUSContext 8 1 = 156
    ∧ calculateOptimalCPM 100 freeUSContext 3 1
      ≠ calculateOptimalCPM 100 freeUSContext 8 1 := by
  have hd : getDayOfWeekFactor 1 = 1 := by decide
  have hu : getUserTierFactor freeUSContext.userTier = 1 := by decide
  have hg : getGeographicFactor freeUSContext.country = 13 / 10 := by
    simp only [freeUSContext, getGeographicFactor]
    simp
  have hb : getBehavioralFactor freeUSContext.userBehavior = 1 := by
    norm_num [getBehavioralFactor, freeUSContext]
  have h3 : calculateOptimalCPM 100 freeUSContext 3 1 = 104 := by
    have ht : getTimeOfDayFactor 3 = 4 / 5 := by
      simp only [getTimeOfDayFactor, timeSlotOfHour]
      norm_num
    simp only [calculateOptimalCPM]
    rw [ht, hd, hu, hg, hb]
    rw [max_eq_left (by norm_num)]
    simp only [jsRound2]
    norm_num
  have h8 : calculateOptimalCPM 100 freeUSContext 8 1 = 156 := by
    have ht : getTimeOfDayFactor 8 = 6 / 5 := by
      simp only [getTimeOfDayFactor, timeSlotOfHour]
      norm_num
    simp only [calculateOptimalCPM]
    rw [ht, hd, hu, hg, hb]
    rw [max_eq_left (by norm_num)]
    simp only [jsRound2]
    norm_num
  refine ⟨h3, h8, ?_⟩
  rw [h3, h8]
  norm_num

/-- C5 as amended: the optimizer is deterministic given its arguments
plus the clock reading - two calls with the same base CPM, context,
6-hour time bucket and weekday return the identical number. -/
theorem cpm_deterministic_given_clock (b : ℚ) (ctx : AdContext) (h1 h2 d : Nat)
    (hslot : timeSlotOfHour h1 = timeSlotOfHour h2) :
    calculateOptimalCPM b ctx h1 d = calculateOptimalCPM b ctx h2 d := by
  unfold calculateOptimalCPM getTimeOfDayFactor
  rw [hslot]

/-- Witness for the amended C5: hours 13 and 17 share the afternoon
bucket and price identically. -/
theorem cpm_deterministic_given_clock_witness :
    calculateOptimalCPM 100 freeUSContext 13 1 = calculateOptimalCPM 100 freeUSContext 17 1 :=
  cpm_deterministic_given_clock 100 freeUSContext 13 17 1 (by decide)

/-- C6: `selectAd` is total - a failed catalog query and an empty
filtered set both resolve to the fixed fallback campaign (id
"fallback", cpm 50), never to an error or a blocked request. -/
theorem selectAd_total_fallback (catalog : List Campaign) (now : Int) (tier : Tier) :
    selectAd none now tier = getFallbackAd
    ∧ (availableCampaigns catalog now tier = []
        → selectAd (some catalog) now tier = getFallbackAd)
    ∧ getFallbackAd.id = "fallback"
    ∧ getFallbackAd.cpm = 50 := by
  refine ⟨rfl, ?_, rfl, rfl⟩
  intro hemp
  rcases selectAd_some_cases catalog now tier with ⟨_, hfb⟩ | ⟨h, t, hav, _⟩
  · exact hfb
  · rw [hemp] at hav
    simp at hav

/-- Witness for C6 on the empty catalog. -/
theorem selectAd_total_fallback_witness :
    selectAd (some ([] : List Campaign)) 0 Tier.free = getFallbackAd
    ∧ getFallbackAd.id = "fallback" :=
  ⟨(selectAd_total_fallback [] 0 Tier.free).2.1 rfl,
    (selectAd_total_fallback [] 0 Tier.free).2.2.1⟩

/-- C7 counterexample: when the persistence read of the quota check
fails, `getTodayTaskCount` swallows the error and returns 0, so the
free-tier text request is allowed - the quota path fails open, not
closed as claimed. -/
theorem quota_read_fail_allows :
    canProcessTask Tier.free ResourceType.text (Except.error ()) = true := by
  decide

/-- C7 as amended: a failed quota read is treated as a zero count, so
the request is allowed whenever the tier's limit is nonzero (fail
open); a failed impression write is also swallowed - the ad is served
with a locally generated tracking token and no error reaches the
caller.  Both paths fail open; the claimed asymmetry does not hold. -/
theorem quota_impression_fail_open (tier : Tier) (ty : ResourceType) (stats : UserStats)
    (catalogResult : Option (List Campaign)) (now : Int) (genTok : String) :
    canProcessTask tier ty (Except.error ()) = canProcessTask tier ty (Except.ok 0)
    ∧ (taskLimits tier ty ≠ 0 → canProcessTask tier ty (Except.error ()) = true)
    ∧ (shouldServeAd tier stats = true →
        serveAd tier stats catalogResult now (Except.error ()) genTok
          = ServeResult.withAd (selectAd catalogResult now tier) genTok) := by
  refine ⟨rfl, ?_, ?_⟩
  · cases tier <;> cases ty <;> decide
  · intro hdue
    unfold serveAd
    rw [hdue]
    rfl

/-- Witness for the amended C7: a free-tier user due an ad still
receives the ad descriptor when the impression write fails. -/
theorem quota_impression_fail_open_witness :
    canProcessTask Tier.free ResourceType.text (Except.error ())
      = canProcessTask Tier.free ResourceType.text (Except.ok 0)
    ∧ canProcessTask Tier.free ResourceType.text (Except.error ()) = true
    ∧ serveAd Tier.free ⟨2, 0, 0⟩ none 0 (Except.error ()) "tok"
      = ServeResult.withAd (selectAd none 0 Tier.free) "tok" := by
  have h := quota_impression_fail_open Tier.free ResourceType.text ⟨2, 0, 0⟩ none 0 "tok"
  exact ⟨h.1, h.2.1 (by decide), h.2.2 (by decide)⟩

/-- C8 (code bug): `recordCompletion` is not idempotent - a second call
with the same impression id increments the campaign's completions
counter again (0 to 1 to 2), changing the end state, because the
campaign UPDATE runs unconditionally with no check of the existing
completed flag. -/
theorem recordCompletion_double_increment :
    (recordCompletion cexAdDb 1 100).2 = true
    ∧ (recordCompletion (recordCompletion cexAdDb 1 100).1 1 100).2 = true
    ∧ ((recordCompletion cexAdDb 1 100).1.campaigns.map Campaign.completions) = [1]
    ∧ ((recordCompletion (recordCompletion cexAdDb 1 100).1 1 100).1.campaigns.map
        Campaign.completions) = [2]
    ∧ ((recordCompletion (recordCompletion cexAdDb 1 100).1 1 100).1.campaigns.map
        Campaign.completions)
      ≠ ((recordCompletion cexAdDb 1 100).1.campaigns.map Campaign.completions) := by
  decide

/-- C10 counterexample: a row last updated on day 9 with counters
(3, 1) is reset on day 10 - its counters are zeroed, but `updated_at`
moves from 9 to 10: the schema's ON UPDATE CURRENT_TIMESTAMP makes the
reset modify a field other than `tasks_today` and `ads_today`. -/
theorem resetDailyCounts_updatedAt_cex :
    (resetDailyCounts 10 [cexUserRow]).map UserRow.tasksToday = [0]
    ∧ (resetDailyCounts 10 [cexUserRow]).map UserRow.adsToday = [0]
    ∧ (resetDailyCounts 10 [cexUserRow]).map UserRow.updatedAt = [10]
    ∧ cexUserRow.updatedAt = 9 := by
  decide

/-- C10 as amended: on rows whose `updated_at` date precedes today the
reset zeroes `tasks_today` and `ads_today` and - through the schema's
ON UPDATE CURRENT_TIMESTAMP column - sets `updated_at` to now when the
counters actually change (a matched row already at zero is untouched);
every other field of every row, in particular the frequency-cap
watermark `last_ad_task_count` and `total_ads`, is unchanged, and rows
updated today are unchanged entirely. -/
theorem resetDailyCounts_frame (today : Nat) (users : List UserRow) :
    resetDailyCounts today users = users.map (resetUserRow today)
    ∧ ∀ u : UserRow,
        (resetUserRow today u).id = u.id
        ∧ (resetUserRow today u).subscriptionTier = u.subscriptionTier
        ∧ (resetUserRow today u).totalAds = u.totalAds
        ∧ (resetUserRow today u).lastAdTaskCount = u.lastAdTaskCount
        ∧ (resetUserRow today u).lastAdDate = u.lastAdDate
        ∧ (resetUserRow today u).lastTaskDate = u.lastTaskDate
        ∧ (resetUserRow today u).tasksToday = (if u.updatedAt < today then 0 else u.tasksToday)
        ∧ (resetUserRow today u).adsToday = (if u.updatedAt < today then 0 else u.adsToday)
        ∧ (resetUserRow today u).updatedAt
          = (if u.updatedAt < today ∧ ¬(u.tasksToday = 0 ∧ u.adsToday = 0) then today
             else u.updatedAt) := by
  refine ⟨rfl, fun u => ?_⟩
  unfold resetUserRow
  by_cases h1 : u.updatedAt < today
  · by_cases h2 : u.tasksToday = 0 ∧ u.adsToday = 0
    · simp [h1, h2, h2.1, h2.2]
    · simp [h1, h2]
  · simp [h1]

/-- C9 (code bug): with the free-tier image limit of 1, the interleaving
in which both requests read the count before either records its task
accepts both requests, ending the day with 2 accepted consumptions
against a limit of 1; the serialized schedule accepts exactly one. -/
theorem race_exceeds_daily_limit :
    taskLimits Tier.free ResourceType.image = 1
    ∧ ((runRace Tier.free ResourceType.image [false, true, false, true]).req1.accepted = true
        ∧ (runRace Tier.free ResourceType.image [false, true, false, true]).req2.accepted = true
        ∧ (runRace Tier.free ResourceType.image [false, true, false, true]).tasksCount = 2)
    ∧ ((runRace Tier.free ResourceType.image [false, false, true, true]).req1.accepted = true
        ∧ (runRace Tier.free ResourceType.image [false, false, true, true]).req2.accepted = false
        ∧ (runRace Tier.free ResourceType.image [false, false, true, true]).tasksCount = 1) := by
  decide

end SIO
